import Mathlib

/-!
Verification of the chain environment defined in
src/ray-rllib/05-Custom-Environments-Reward-Shaping.ipynb.

The notebook defines a gym environment `ChainEnv`: positions 0 .. n-1 on a
line, two actions (0 = forwards, 1 = backwards), a step counter with horizon
n.  The notebook cell is the exercise skeleton: `_setup_spaces` leaves both
spaces as `None` (a TODO), and every reward assignment is the TODO
placeholder `reward = -1`.  The notebook then imports the completed class
with `from chain_env import ChainEnv` and uses it for training; the module
`chain_env.py` is part of the repository but not among the provided sources,
so its reward values and spaces are modelled from the spec below under the
namespace `chain_env`.  `ShapedChainEnv` subclasses the imported class and
overrides `step` with, as shipped, the same placeholder text as the skeleton.

Modelling conventions:
  - `self.state` and `self._counter` are Python ints that remain nonnegative,
    modelled as `Nat`; rewards and actions are modelled as `Int`
    (`spaces.Discrete(2).contains` rejects negative ints).
  - The comparison `self.state < self.n - 1` is carried out in `Int`, as in
    Python, because `self.n - 1` can be negative when `n = 0`.
  - `spaces.Discrete(k)` is modelled by its size `k`; an unset space
    (`None`) is `Option.none`.  `assert self.action_space.contains(action)`
    raises on a `None` space (attribute error) and on a failed membership
    test (assertion error); both make `step` return no value, so `step`
    returns an `Option`: `none` means the call raised.
  - The info dictionary returned by `step` is always the literal `{}`,
    modelled as an empty association list.
-/

/-- The info dictionary returned by `step` (always empty in the source). -/
abbrev Info : Type := List (String × String)

/-- The instance attributes of a `ChainEnv` object: static configuration
(`n`, `small_reward`, `large_reward`, `_horizon`), mutable episode state
(`state`, `_counter`), and the gym spaces set by `_setup_spaces`. -/
structure ChainEnvState where
  n : Nat
  small_reward : Int
  large_reward : Int
  state : Nat
  _horizon : Nat
  _counter : Nat
  action_space : Option Nat
  observation_space : Option Nat
  deriving DecidableEq, Repr

/-- The optional `env_config` dictionary accepted by `ChainEnv.__init__`,
restricted to the three keys the constructor reads. -/
structure EnvConfig where
  n : Option Nat := none
  small : Option Int := none
  large : Option Int := none

/-- Instance search needs a hand on the nested product returned by `step`. -/
instance : DecidableEq ((Nat × Int × Bool × Info) × ChainEnvState) :=
  instDecidableEqProd

/-- `spaces.Discrete(k).contains(a)` for an int `a`, guarded by the space
being set at all: `none` models an attribute access on `None`. -/
def spaceContains (space : Option Nat) (a : Int) : Option Bool :=
  match space with
  | none => none
  | some k => some (decide (0 ≤ a ∧ a < (k : Int)))

/-- `ChainEnv.__init__` before `_setup_spaces` runs: reads `n`, `small` and
`large` from the config with defaults 20, 2, 10, starts at position 0 with
counter 0 and horizon `n`; no spaces are set yet. -/
def ChainEnv.initCore (env_config : Option EnvConfig) : ChainEnvState :=
  let cfg := match env_config with
    | some c => c
    | none => {}
  let nv := cfg.n.getD 20
  { n := nv
    small_reward := cfg.small.getD 2
    large_reward := cfg.large.getD 10
    state := 0
    _horizon := nv
    _counter := 0
    action_space := none
    observation_space := none }

/-- `ChainEnv._setup_spaces` as shipped in the notebook cell: the TODO stub
sets both spaces to `None`. -/
def ChainEnv._setup_spaces (e : ChainEnvState) : ChainEnvState :=
  { e with action_space := none, observation_space := none }

/-- `ChainEnv.__init__` of the notebook cell (field setup then the stubbed
`_setup_spaces`). -/
def ChainEnv.init (env_config : Option EnvConfig) : ChainEnvState :=
  ChainEnv._setup_spaces (ChainEnv.initCore env_config)

/-- The body of the notebook cell's `ChainEnv.step` after the assert: the
branch on the action and position, the counter increment, the done test, and
the returned tuple `(state, reward, done, info)` paired with the mutated
instance.  All three reward assignments are the TODO placeholder `-1`. -/
def ChainEnv.stepBody (e : ChainEnvState) (action : Int) :
    (Nat × Int × Bool × Info) × ChainEnvState :=
  let re : Int × ChainEnvState :=
    if action = 1 then
      (-1, { e with state := 0 })
    else if (e.state : Int) < (e.n : Int) - 1 then
      (-1, { e with state := e.state + 1 })
    else
      (-1, e)
  let e2 : ChainEnvState := { re.2 with _counter := re.2._counter + 1 }
  ((e2.state, re.1, decide (e2._counter ≥ e2._horizon), ([] : Info)), e2)

/-- The notebook cell's `ChainEnv.step`: the assert on
`self.action_space.contains(action)`, then the body.  `none` means the call
raised and returned nothing. -/
def ChainEnv.step (e : ChainEnvState) (action : Int) :
    Option ((Nat × Int × Bool × Info) × ChainEnvState) :=
  match spaceContains e.action_space action with
  | some true => some (ChainEnv.stepBody e action)
  | _ => none

/-- `ChainEnv.reset`: position and counter back to 0, returns `self.state`.
The subclasses inherit this method unchanged. -/
def ChainEnv.reset (e : ChainEnvState) : Nat × ChainEnvState :=
  let e1 := { e with state := 0, _counter := 0 }
  (e1.state, e1)

/-- Modelled from the spec: `_setup_spaces` of the completed class in
`chain_env.py` (the module the notebook imports; not among the provided
sources).  The action space is an integer in `[0, 1]` and the observation
space an integer in `[0, n-1]`, i.e. `spaces.Discrete(2)` and
`spaces.Discrete(n)` as the notebook instructions prescribe. -/
def chain_env._setup_spaces (e : ChainEnvState) : ChainEnvState :=
  { e with action_space := some 2, observation_space := some e.n }

/-- Modelled from the spec: `__init__` of the completed class in
`chain_env.py` — the same field setup as the notebook cell followed by the
completed `_setup_spaces`. -/
def chain_env.init (env_config : Option EnvConfig) : ChainEnvState :=
  chain_env._setup_spaces (ChainEnv.initCore env_config)

/-- Modelled from the spec: the body of `step` of the completed class in
`chain_env.py`, identical to the notebook cell except that the three TODO
reward placeholders are replaced by the specified rewards — `small_reward`
for action 1, `0` for advancing, `large_reward` at the end of the chain. -/
def chain_env.stepBody (e : ChainEnvState) (action : Int) :
    (Nat × Int × Bool × Info) × ChainEnvState :=
  let re : Int × ChainEnvState :=
    if action = 1 then
      (e.small_reward, { e with state := 0 })
    else if (e.state : Int) < (e.n : Int) - 1 then
      (0, { e with state := e.state + 1 })
    else
      (e.large_reward, e)
  let e2 : ChainEnvState := { re.2 with _counter := re.2._counter + 1 }
  ((e2.state, re.1, decide (e2._counter ≥ e2._horizon), ([] : Info)), e2)

/-- Modelled from the spec: `step` of the completed class in `chain_env.py`
— the same assert as the notebook cell, then the completed body. -/
def chain_env.step (e : ChainEnvState) (action : Int) :
    Option ((Nat × Int × Bool × Info) × ChainEnvState) :=
  match spaceContains e.action_space action with
  | some true => some (chain_env.stepBody e action)
  | _ => none

/-- The body of `ShapedChainEnv.step` as shipped in the notebook: textually
identical to the notebook cell body of `ChainEnv.step` (every reward is the
placeholder `-1`, the transitions, counter and done test are the same). -/
def ShapedChainEnv.stepBody (e : ChainEnvState) (action : Int) :
    (Nat × Int × Bool × Info) × ChainEnvState :=
  let re : Int × ChainEnvState :=
    if action = 1 then
      (-1, { e with state := 0 })
    else if (e.state : Int) < (e.n : Int) - 1 then
      (-1, { e with state := e.state + 1 })
    else
      (-1, e)
  let e2 : ChainEnvState := { re.2 with _counter := re.2._counter + 1 }
  ((e2.state, re.1, decide (e2._counter ≥ e2._horizon), ([] : Info)), e2)

/-- `ShapedChainEnv.step` as shipped: the same assert, then its body. -/
def ShapedChainEnv.step (e : ChainEnvState) (action : Int) :
    Option ((Nat × Int × Bool × Info) × ChainEnvState) :=
  match spaceContains e.action_space action with
  | some true => some (ShapedChainEnv.stepBody e action)
  | _ => none

/-- Iterated application of the successor state of the notebook cell's step
body: the instance state after a list of actions has been fed to `step`
(each action given to `step`, the returned tuples discarded).  The successor
states of the notebook cell body, of the completed `chain_env` body and of
the shipped `ShapedChainEnv` body coincide, since the three bodies differ
only in the reward component of the returned tuple. -/
def ChainEnv.runBody (e : ChainEnvState) : List Int → ChainEnvState
  | [] => e
  | a :: as => ChainEnv.runBody (ChainEnv.stepBody e a).2 as

/-- Iterated action 0 (forwards) on the completed environment: the instance
state after `k` calls of `step` with action 0. -/
def chain_env.iterFwd (e : ChainEnvState) : Nat → ChainEnvState
  | 0 => e
  | k + 1 => (chain_env.stepBody (chain_env.iterFwd e k) 0).2

/-- The episode states reachable, under the default configuration, through
the completed environment: the freshly constructed instance, and closure
under `reset` and successful `step` calls. -/
inductive Reachable : ChainEnvState → Prop where
  | init : Reachable (chain_env.init none)
  | reset (e : ChainEnvState) : Reachable e → Reachable (ChainEnv.reset e).2
  | step (e e2 : ChainEnvState) (a : Int) (out : Nat × Int × Bool × Info) :
      Reachable e → chain_env.step e a = some (out, e2) → Reachable e2

/-! ### Helper lemmas -/

/-- The successor state of the notebook cell step body, in closed form. -/
theorem ChainEnv.stepBody_snd (e : ChainEnvState) (a : Int) :
    (ChainEnv.stepBody e a).2 =
      { e with
        state := if a = 1 then 0
          else if (e.state : Int) < (e.n : Int) - 1 then e.state + 1
          else e.state,
        _counter := e._counter + 1 } := by
  unfold ChainEnv.stepBody
  by_cases h1 : a = 1 <;> by_cases h2 : (e.state : Int) < (e.n : Int) - 1 <;>
    simp [h1, h2]

/-- The successor state of the completed step body, in the same closed form:
the completed body changes the instance exactly as the notebook cell body
does (the two differ only in the reward component of the returned tuple). -/
theorem chain_env.stepBodySnd_completed (e : ChainEnvState) (a : Int) :
    (chain_env.stepBody e a).2 =
      { e with
        state := if a = 1 then 0
          else if (e.state : Int) < (e.n : Int) - 1 then e.state + 1
          else e.state,
        _counter := e._counter + 1 } := by
  unfold chain_env.stepBody
  by_cases h1 : a = 1 <;> by_cases h2 : (e.state : Int) < (e.n : Int) - 1 <;>
    simp [h1, h2]

/-- The returned tuple of the notebook cell step body, in terms of the
successor state: the returned position is the successor position, the reward
is the placeholder, done is the counter test, the info dictionary is empty. -/
theorem ChainEnv.stepBody_fst (e : ChainEnvState) (a : Int) :
    (ChainEnv.stepBody e a).1 =
      ((ChainEnv.stepBody e a).2.state, -1,
        decide ((ChainEnv.stepBody e a).2._counter ≥ (ChainEnv.stepBody e a).2._horizon),
        ([] : Info)) := by
  unfold ChainEnv.stepBody
  by_cases h1 : a = 1 <;> by_cases h2 : (e.state : Int) < (e.n : Int) - 1 <;>
    simp [h1, h2]

/-- A successful call of the notebook cell `step` is the step body. -/
theorem ChainEnv.step_some (e e2 : ChainEnvState) (a : Int)
    (out : Nat × Int × Bool × Info) (h : ChainEnv.step e a = some (out, e2)) :
    out = (ChainEnv.stepBody e a).1 ∧ e2 = (ChainEnv.stepBody e a).2 := by
  unfold ChainEnv.step at h
  split at h
  · cases h
    exact ⟨rfl, rfl⟩
  · cases h

/-- A successful call of the completed `step` is the completed step body. -/
theorem chain_env.stepSome_completed (e e2 : ChainEnvState) (a : Int)
    (out : Nat × Int × Bool × Info) (h : chain_env.step e a = some (out, e2)) :
    out = (chain_env.stepBody e a).1 ∧ e2 = (chain_env.stepBody e a).2 := by
  unfold chain_env.step at h
  split at h
  · cases h
    exact ⟨rfl, rfl⟩
  · cases h

/-- Stepping preserves the configuration fields and the spaces, and
increments the counter, for the notebook cell body. -/
theorem ChainEnv.stepBody_frame (e : ChainEnvState) (a : Int) :
    (ChainEnv.stepBody e a).2.n = e.n ∧
    (ChainEnv.stepBody e a).2.small_reward = e.small_reward ∧
    (ChainEnv.stepBody e a).2.large_reward = e.large_reward ∧
    (ChainEnv.stepBody e a).2._horizon = e._horizon ∧
    (ChainEnv.stepBody e a).2.action_space = e.action_space ∧
    (ChainEnv.stepBody e a).2.observation_space = e.observation_space ∧
    (ChainEnv.stepBody e a).2._counter = e._counter + 1 := by
  rw [ChainEnv.stepBody_snd]
  exact ⟨rfl, rfl, rfl, rfl, rfl, rfl, rfl⟩

/-- Stepping preserves the configuration fields and the spaces, and
increments the counter, for the completed body. -/
theorem chain_env.stepBodyFrame_completed (e : ChainEnvState) (a : Int) :
    (chain_env.stepBody e a).2.n = e.n ∧
    (chain_env.stepBody e a).2.small_reward = e.small_reward ∧
    (chain_env.stepBody e a).2.large_reward = e.large_reward ∧
    (chain_env.stepBody e a).2._horizon = e._horizon ∧
    (chain_env.stepBody e a).2.action_space = e.action_space ∧
    (chain_env.stepBody e a).2.observation_space = e.observation_space ∧
    (chain_env.stepBody e a).2._counter = e._counter + 1 := by
  rw [chain_env.stepBodySnd_completed]
  exact ⟨rfl, rfl, rfl, rfl, rfl, rfl, rfl⟩

/-- Running a list of actions preserves the configuration fields and the
spaces, and advances the counter by the number of actions. -/
theorem ChainEnv.runBody_frame (as : List Int) : ∀ e : ChainEnvState,
    (ChainEnv.runBody e as).n = e.n ∧
    (ChainEnv.runBody e as)._horizon = e._horizon ∧
    (ChainEnv.runBody e as).action_space = e.action_space ∧
    (ChainEnv.runBody e as)._counter = e._counter + as.length := by
  induction as with
  | nil => intro e; simp [ChainEnv.runBody]
  | cons a as ih =>
    intro e
    obtain ⟨hn, hh, ha, hc⟩ := ih (ChainEnv.stepBody e a).2
    obtain ⟨fn, _, _, fh, fa, _, fc⟩ := ChainEnv.stepBody_frame e a
    refine ⟨?_, ?_, ?_, ?_⟩
    · rw [ChainEnv.runBody, hn, fn]
    · rw [ChainEnv.runBody, hh, fh]
    · rw [ChainEnv.runBody, ha, fa]
    · rw [ChainEnv.runBody, hc, fc]
      simp [List.length_cons]
      omega

/-- Positions stay below the chain length along any run of the notebook cell
body, as long as they start there. -/
theorem ChainEnv.runBody_state_lt (as : List Int) : ∀ e : ChainEnvState,
    e.state < e.n → (ChainEnv.runBody e as).state < e.n := by
  induction as with
  | nil => intro e h; simpa [ChainEnv.runBody] using h
  | cons a as ih =>
    intro e h
    rw [ChainEnv.runBody]
    obtain ⟨fn, _⟩ := ChainEnv.stepBody_frame e a
    have hstep : (ChainEnv.stepBody e a).2.state < (ChainEnv.stepBody e a).2.n := by
      rw [ChainEnv.stepBody_snd]
      by_cases h1 : a = 1 <;> by_cases h2 : (e.state : Int) < (e.n : Int) - 1 <;>
        simp [h1, h2] <;> omega
    have := ih (ChainEnv.stepBody e a).2 hstep
    rwa [fn] at this

/-- Every reachable state of the default-configured completed environment
keeps the constructor configuration and the completed action space. -/
theorem Reachable.config (e : ChainEnvState) (h : Reachable e) :
    e.n = 20 ∧ e.small_reward = 2 ∧ e.large_reward = 10 ∧
    e._horizon = 20 ∧ e.action_space = some 2 := by
  induction h with
  | init => exact ⟨rfl, rfl, rfl, rfl, rfl⟩
  | reset e _ ih => simpa [ChainEnv.reset] using ih
  | step e e2 a out _ hstep ih =>
    obtain ⟨_, he2⟩ := chain_env.stepSome_completed e e2 a out hstep
    obtain ⟨fn, fs, fl, fh, fa, _, _⟩ := chain_env.stepBodyFrame_completed e a
    subst he2
    exact ⟨fn.trans ih.1, fs.trans ih.2.1, fl.trans ih.2.2.1,
      fh.trans ih.2.2.2.1, fa.trans ih.2.2.2.2⟩

/-- Iterating action 0 from the end of the chain: the position, the
configuration and the action space are preserved and the counter counts the
iterations. -/
theorem chain_env.iterFwd_inv (e : ChainEnvState)
    (hb : (e.state : Int) = (e.n : Int) - 1) : ∀ k : Nat,
    (chain_env.iterFwd e k).state = e.state ∧
    (chain_env.iterFwd e k).n = e.n ∧
    (chain_env.iterFwd e k).large_reward = e.large_reward ∧
    (chain_env.iterFwd e k).action_space = e.action_space ∧
    (chain_env.iterFwd e k)._horizon = e._horizon ∧
    (chain_env.iterFwd e k)._counter = e._counter + k := by
  intro k
  induction k with
  | zero => exact ⟨rfl, rfl, rfl, rfl, rfl, rfl⟩
  | succ k ih =>
    obtain ⟨hs, hn, hl, ha, hh, hc⟩ := ih
    have hnot : ¬ (((chain_env.iterFwd e k).state : Int) <
        ((chain_env.iterFwd e k).n : Int) - 1) := by
      rw [hs, hn, hb]; omega
    have hsnd := chain_env.stepBodySnd_completed (chain_env.iterFwd e k) 0
    rw [if_neg (by omega : ¬ ((0 : Int) = 1)), if_neg hnot] at hsnd
    refine ⟨?_, ?_, ?_, ?_, ?_, ?_⟩ <;>
      (rw [chain_env.iterFwd, hsnd]; simp [hs, hn, hl, ha, hh, hc]; try omega)

/-! ### Concrete instances used by the witnesses -/

/-- A freshly constructed completed environment with the default
configuration (n = 20, small = 2, large = 10). -/
def defaultEnv : ChainEnvState := chain_env.init none

/-- A default-configured completed environment standing at the end of the
chain (position 19 = n - 1). -/
def boundaryEnv : ChainEnvState :=
  { n := 20, small_reward := 2, large_reward := 10, state := 19,
    _horizon := 20, _counter := 0, action_space := some 2,
    observation_space := some 20 }

/-! ### The claims -/

/-- C1: for every reachable episode state of the default-configured
environment, `step` with action 1 returns position 0 with the small fixed
reward, which is 2 under the default configuration, and the successor state
is at position 0. -/
theorem C1_retreat_resets_with_small_reward (e : ChainEnvState)
    (h : Reachable e) :
    ∃ d e2, chain_env.step e 1 = some ((0, 2, d, ([] : Info)), e2) ∧
      e2.state = 0 ∧ e.small_reward = 2 := by
  obtain ⟨_, hsmall, _, _, hsp⟩ := Reachable.config e h
  have hbody : chain_env.stepBody e 1 =
      ((0, 2, decide (e._counter + 1 ≥ e._horizon), ([] : Info)),
        { e with state := 0, _counter := e._counter + 1 }) := by
    unfold chain_env.stepBody
    simp [hsmall]
  refine ⟨decide (e._counter + 1 ≥ e._horizon),
    { e with state := 0, _counter := e._counter + 1 }, ?_, rfl, hsmall⟩
  unfold chain_env.step
  have hg : spaceContains e.action_space 1 = some true := by rw [hsp]; rfl
  rw [hg]
  show some (chain_env.stepBody e 1) = _
  rw [hbody]

/-- Witness for C1 at the freshly constructed default environment. -/
theorem C1_retreat_resets_with_small_reward_witness :
    Reachable (chain_env.init none) ∧
    (∃ d e2, chain_env.step (chain_env.init none) 1 =
        some ((0, 2, d, ([] : Info)), e2) ∧
      e2.state = 0 ∧ (chain_env.init none).small_reward = 2) :=
  ⟨Reachable.init, C1_retreat_resets_with_small_reward _ Reachable.init⟩

/-- C2: from any episode state with position strictly below n - 1, `step`
with action 0 moves the position up by one and returns reward 0. -/
theorem C2_advance_increments_with_zero_reward (e : ChainEnvState)
    (hsp : e.action_space = some 2)
    (hlt : (e.state : Int) < (e.n : Int) - 1) :
    ∃ d e2, chain_env.step e 0 = some ((e.state + 1, 0, d, ([] : Info)), e2) ∧
      e2.state = e.state + 1 ∧ e2._counter = e._counter + 1 := by
  have hbody : chain_env.stepBody e 0 =
      ((e.state + 1, 0, decide (e._counter + 1 ≥ e._horizon), ([] : Info)),
        { e with state := e.state + 1, _counter := e._counter + 1 }) := by
    unfold chain_env.stepBody
    simp [hlt]
  refine ⟨decide (e._counter + 1 ≥ e._horizon),
    { e with state := e.state + 1, _counter := e._counter + 1 }, ?_, rfl, rfl⟩
  unfold chain_env.step
  have hg : spaceContains e.action_space 0 = some true := by rw [hsp]; rfl
  rw [hg]
  show some (chain_env.stepBody e 0) = _
  rw [hbody]

/-- Witness for C2 at the freshly constructed default environment
(position 0, chain length 20). -/
theorem C2_advance_increments_with_zero_reward_witness :
    defaultEnv.action_space = some 2 ∧
    ((defaultEnv.state : Int) < (defaultEnv.n : Int) - 1) ∧
    (∃ d e2, chain_env.step defaultEnv 0 =
        some ((defaultEnv.state + 1, 0, d, ([] : Info)), e2) ∧
      e2.state = defaultEnv.state + 1 ∧ e2._counter = defaultEnv._counter + 1) :=
  ⟨rfl, by decide,
    C2_advance_increments_with_zero_reward defaultEnv rfl (by decide)⟩

/-- C3: from an episode state at the end of the chain (position = n - 1),
every further `step` with action 0 leaves the position at n - 1 and returns
the large fixed reward, on this step and on every subsequent step taken at
the boundary. -/
theorem C3_boundary_keeps_position_with_large_reward (e : ChainEnvState)
    (hsp : e.action_space = some 2)
    (hb : (e.state : Int) = (e.n : Int) - 1) :
    ∀ k : Nat, (chain_env.iterFwd e k).state = e.state ∧
      ∃ d, chain_env.step (chain_env.iterFwd e k) 0 =
        some ((e.state, e.large_reward, d, ([] : Info)),
          chain_env.iterFwd e (k + 1)) := by
  intro k
  obtain ⟨hs, hn, hl, ha, hh, hc⟩ := chain_env.iterFwd_inv e hb k
  have hnot : ¬ (((chain_env.iterFwd e k).state : Int) <
      ((chain_env.iterFwd e k).n : Int) - 1) := by
    rw [hs, hn, hb]; omega
  have hbody : chain_env.stepBody (chain_env.iterFwd e k) 0 =
      (((chain_env.iterFwd e k).state, (chain_env.iterFwd e k).large_reward,
          decide ((chain_env.iterFwd e k)._counter + 1 ≥
            (chain_env.iterFwd e k)._horizon), ([] : Info)),
        { chain_env.iterFwd e k with
            _counter := (chain_env.iterFwd e k)._counter + 1 }) := by
    unfold chain_env.stepBody
    simp [hnot]
  refine ⟨hs, decide ((chain_env.iterFwd e k)._counter + 1 ≥
    (chain_env.iterFwd e k)._horizon), ?_⟩
  have hg : spaceContains (chain_env.iterFwd e k).action_space 0 = some true := by
    rw [ha, hsp]; rfl
  unfold chain_env.step
  rw [hg]
  show some (chain_env.stepBody (chain_env.iterFwd e k) 0) = _
  simp only [chain_env.iterFwd, hbody, hs, hl]

/-- Witness for C3 at a default-configured environment standing at
position 19 = n - 1, iterated three times. -/
theorem C3_boundary_keeps_position_with_large_reward_witness :
    boundaryEnv.action_space = some 2 ∧
    ((boundaryEnv.state : Int) = (boundaryEnv.n : Int) - 1) ∧
    ((chain_env.iterFwd boundaryEnv 3).state = boundaryEnv.state ∧
      ∃ d, chain_env.step (chain_env.iterFwd boundaryEnv 3) 0 =
        some ((boundaryEnv.state, boundaryEnv.large_reward, d, ([] : Info)),
          chain_env.iterFwd boundaryEnv (3 + 1))) :=
  ⟨rfl, by decide,
    C3_boundary_keeps_position_with_large_reward boundaryEnv rfl (by decide) 3⟩

/-- C4: every successful `step` call increments the counter by exactly one
and returns done exactly when the incremented counter has reached the
horizon; consequently, in any run started by `reset`, the k-th step returns
done = (k has reached n), regardless of the actions taken. -/
theorem C4_counter_increment_and_termination :
    (∀ (e e2 : ChainEnvState) (a : Int) (out : Nat × Int × Bool × Info),
      ChainEnv.step e a = some (out, e2) →
        e2._counter = e._counter + 1 ∧
        out.2.2.1 = decide (e2._counter ≥ e2._horizon)) ∧
    (∀ (e : ChainEnvState) (as : List Int) (a : Int),
      e.action_space = some 2 → e._horizon = e.n →
      (∀ x ∈ as, x = 0 ∨ x = 1) → (a = 0 ∨ a = 1) →
      ∃ s r e2, ChainEnv.step (ChainEnv.runBody (ChainEnv.reset e).2 as) a =
        some ((s, r, decide (as.length + 1 ≥ e.n), ([] : Info)), e2) ∧
        e2._counter = as.length + 1) := by
  constructor
  · intro e e2 a out h
    obtain ⟨hout, he2⟩ := ChainEnv.step_some e e2 a out h
    obtain ⟨_, _, _, _, _, _, fc⟩ := ChainEnv.stepBody_frame e a
    subst hout he2
    refine ⟨fc, ?_⟩
    rw [ChainEnv.stepBody_fst]
  · intro e as a hsp hhn _ ha
    obtain ⟨rn, rh, ra, rc⟩ := ChainEnv.runBody_frame as (ChainEnv.reset e).2
    have hg : spaceContains
        (ChainEnv.runBody (ChainEnv.reset e).2 as).action_space a = some true := by
      rw [ra]
      show spaceContains (ChainEnv.reset e).2.action_space a = some true
      show spaceContains e.action_space a = some true
      rw [hsp]
      rcases ha with h | h <;> subst h <;> rfl
    obtain ⟨fn, _, _, fh, _, _, fc⟩ :=
      ChainEnv.stepBody_frame (ChainEnv.runBody (ChainEnv.reset e).2 as) a
    refine ⟨(ChainEnv.stepBody (ChainEnv.runBody (ChainEnv.reset e).2 as) a).2.state,
      -1, (ChainEnv.stepBody (ChainEnv.runBody (ChainEnv.reset e).2 as) a).2, ?_, ?_⟩
    · unfold ChainEnv.step
      rw [hg]
      show some (ChainEnv.stepBody (ChainEnv.runBody (ChainEnv.reset e).2 as) a) = _
      have hcnt : (ChainEnv.stepBody (ChainEnv.runBody (ChainEnv.reset e).2 as) a).2._counter
          = as.length + 1 := by
        rw [fc, rc]
        show 0 + as.length + 1 = as.length + 1
        omega
      have hhor : (ChainEnv.stepBody (ChainEnv.runBody (ChainEnv.reset e).2 as) a).2._horizon
          = e.n := by
        rw [fh, rh]
        show e._horizon = e.n
        exact hhn
      have hfst : (ChainEnv.stepBody (ChainEnv.runBody (ChainEnv.reset e).2 as) a).1 =
          ((ChainEnv.stepBody (ChainEnv.runBody (ChainEnv.reset e).2 as) a).2.state, -1,
            decide (as.length + 1 ≥ e.n), ([] : Info)) := by
        rw [ChainEnv.stepBody_fst, hcnt, hhor]
      exact congrArg some (Prod.ext hfst rfl)
    · rw [fc, rc]
      show 0 + as.length + 1 = as.length + 1
      omega

/-- The default environment after one successful forwards step. -/
def afterFirstAdvance : ChainEnvState :=
  { n := 20, small_reward := 2, large_reward := 10, state := 1,
    _horizon := 20, _counter := 1, action_space := some 2,
    observation_space := some 20 }

/-- Witness for C4: a successful concrete step under the default
configuration and the fourth step of a concrete run of three actions. -/
theorem C4_counter_increment_and_termination_witness :
    (ChainEnv.step defaultEnv 0 =
        some (((1 : Nat), -1, false, ([] : Info)), afterFirstAdvance) ∧
      afterFirstAdvance._counter = defaultEnv._counter + 1 ∧
      (((1 : Nat), (-1 : Int), false, ([] : Info)) : Nat × Int × Bool × Info).2.2.1 =
        decide (afterFirstAdvance._counter ≥ afterFirstAdvance._horizon)) ∧
    (∃ s r e2, ChainEnv.step
        (ChainEnv.runBody (ChainEnv.reset defaultEnv).2 [0, 1, 0]) 0 =
      some ((s, r, decide (([0, 1, 0] : List Int).length + 1 ≥ defaultEnv.n),
        ([] : Info)), e2) ∧
      e2._counter = ([0, 1, 0] : List Int).length + 1) :=
  ⟨⟨by decide,
    C4_counter_increment_and_termination.1 defaultEnv afterFirstAdvance 0
      ((1 : Nat), -1, false, ([] : Info)) (by decide)⟩,
    C4_counter_increment_and_termination.2 defaultEnv [0, 1, 0] 0 rfl rfl
      (by decide) (Or.inl rfl)⟩

/-- C5: for every chain length n with 1 <= n, after a `reset` and any
sequence of valid actions the position stays within [0, n-1] (the lower
bound holds by the type: positions are naturals). -/
theorem C5_position_stays_in_range (e : ChainEnvState) (hn : 1 ≤ e.n)
    (as : List Int) (hval : ∀ x ∈ as, x = 0 ∨ x = 1) :
    (ChainEnv.reset e).2.state < e.n ∧
    (ChainEnv.runBody (ChainEnv.reset e).2 as).state < e.n := by
  have hreset : (ChainEnv.reset e).2.state = 0 := rfl
  constructor
  · rw [hreset]; omega
  · have hstart : (ChainEnv.reset e).2.state < (ChainEnv.reset e).2.n := by
      rw [hreset]
      show 0 < e.n
      omega
    have := ChainEnv.runBody_state_lt as (ChainEnv.reset e).2 hstart
    exact this

/-- Witness for C5 under the default configuration with a run of five valid
actions. -/
theorem C5_position_stays_in_range_witness :
    1 ≤ defaultEnv.n ∧
    ((ChainEnv.reset defaultEnv).2.state < defaultEnv.n ∧
      (ChainEnv.runBody (ChainEnv.reset defaultEnv).2 [0, 0, 1, 0, 0]).state <
        defaultEnv.n) :=
  ⟨by decide, C5_position_stays_in_range defaultEnv (by decide)
    [0, 0, 1, 0, 0] (by decide)⟩

/-- C6: with the action space `spaces.Discrete(2)` in place, a `step` call
returns normally exactly for the actions 0 and 1, and every other action is
rejected by the membership assert; there is no other failure. -/
theorem C6_step_rejects_exactly_invalid_actions (e : ChainEnvState)
    (hsp : e.action_space = some 2) (a : Int) :
    (ChainEnv.step e a).isSome ↔ (a = 0 ∨ a = 1) := by
  unfold ChainEnv.step
  rw [hsp]
  show (match some (decide (0 ≤ a ∧ a < ((2 : Nat) : Int))) with
    | some true => some (ChainEnv.stepBody e a)
    | _ => none).isSome ↔ (a = 0 ∨ a = 1)
  rcases hd : decide (0 ≤ a ∧ a < ((2 : Nat) : Int)) with _ | _
  · have := of_decide_eq_false hd
    simp only [Option.isSome_none, Bool.false_eq_true, false_iff]
    push_cast at this
    omega
  · have := of_decide_eq_true hd
    simp only [Option.isSome_some, true_iff]
    push_cast at this
    omega

/-- Witness for C6: under the default completed environment, action 5 is
rejected (and the equivalence holds at a concrete input). -/
theorem C6_step_rejects_exactly_invalid_actions_witness :
    defaultEnv.action_space = some 2 ∧
    ((ChainEnv.step defaultEnv 5).isSome ↔ ((5 : Int) = 0 ∨ (5 : Int) = 1)) :=
  ⟨rfl, C6_step_rejects_exactly_invalid_actions defaultEnv rfl 5⟩

/-- C7: `reset` returns the initial position 0 and restores a fresh episode
(position and counter 0), and every successful `step` call returns the tuple
of the new position (the successor position), a reward, a done flag and the
empty info dictionary. -/
theorem C7_reset_returns_zero_and_step_tuple_shape :
    (∀ e : ChainEnvState, (ChainEnv.reset e).1 = 0 ∧
      (ChainEnv.reset e).2.state = 0 ∧ (ChainEnv.reset e).2._counter = 0) ∧
    (∀ (e e2 : ChainEnvState) (a : Int) (out : Nat × Int × Bool × Info),
      ChainEnv.step e a = some (out, e2) →
        out.2.2.2 = ([] : Info) ∧ out.1 = e2.state) := by
  constructor
  · intro e
    exact ⟨rfl, rfl, rfl⟩
  · intro e e2 a out h
    obtain ⟨hout, he2⟩ := ChainEnv.step_some e e2 a out h
    subst hout he2
    rw [ChainEnv.stepBody_fst]
    exact ⟨rfl, rfl⟩

/-- Witness for C7 at a concrete reset and a concrete successful step. -/
theorem C7_reset_returns_zero_and_step_tuple_shape_witness :
    ((ChainEnv.reset boundaryEnv).1 = 0 ∧
      (ChainEnv.reset boundaryEnv).2.state = 0 ∧
      (ChainEnv.reset boundaryEnv).2._counter = 0) ∧
    (ChainEnv.step defaultEnv 1 =
        some (((0 : Nat), -1, false, ([] : Info)),
          { defaultEnv with state := 0, _counter := 1 }) ∧
      (((0 : Nat), (-1 : Int), false, ([] : Info)) :
          Nat × Int × Bool × Info).2.2.2 = ([] : Info) ∧
      (((0 : Nat), (-1 : Int), false, ([] : Info)) :
          Nat × Int × Bool × Info).1 =
        ({ defaultEnv with state := 0, _counter := 1 } : ChainEnvState).state) :=
  ⟨C7_reset_returns_zero_and_step_tuple_shape.1 boundaryEnv,
    by decide,
    C7_reset_returns_zero_and_step_tuple_shape.2 defaultEnv
      { defaultEnv with state := 0, _counter := 1 } 1
      ((0 : Nat), -1, false, ([] : Info)) (by decide)⟩

/-- C8: `step` is deterministic — two environments whose position, counter
and configuration (chain length, rewards, horizon, spaces) agree produce the
same returned tuple and the same successor state for the same valid action;
the embedding is a pure function of the instance state, so there is no
effect beyond the returned successor state. -/
theorem C8_step_is_deterministic (e1 e2 : ChainEnvState) (a : Int)
    (hstate : e1.state = e2.state) (hcounter : e1._counter = e2._counter)
    (hn : e1.n = e2.n) (hsmall : e1.small_reward = e2.small_reward)
    (hlarge : e1.large_reward = e2.large_reward)
    (hhor : e1._horizon = e2._horizon)
    (hact : e1.action_space = e2.action_space)
    (hobs : e1.observation_space = e2.observation_space)
    (hvalid : a = 0 ∨ a = 1) :
    ChainEnv.step e1 a = ChainEnv.step e2 a := by
  have : e1 = e2 := by
    cases e1
    cases e2
    simp only [ChainEnvState.mk.injEq]
    exact ⟨hn, hsmall, hlarge, hstate, hhor, hcounter, hact, hobs⟩
  rw [this]

/-- Witness for C8: two syntactically different descriptions of the same
instance state give the same step result. -/
theorem C8_step_is_deterministic_witness :
    ChainEnv.step defaultEnv 0 =
      ChainEnv.step
        { n := 20, small_reward := 2, large_reward := 10, state := 0,
          _horizon := 20, _counter := 0, action_space := some 2,
          observation_space := some 20 } 0 :=
  C8_step_is_deterministic defaultEnv
    { n := 20, small_reward := 2, large_reward := 10, state := 0,
      _horizon := 20, _counter := 0, action_space := some 2,
      observation_space := some 20 } 0
    rfl rfl rfl rfl rfl rfl rfl rfl (Or.inl rfl)

/-- C9: `ShapedChainEnv.step` as shipped computes exactly the same returned
tuple and the same successor state as the notebook cell `ChainEnv.step` on
every instance state and valid action — the two method texts are identical,
so the two step implementations are extensionally equal. -/
theorem C9_shaped_step_equals_chain_step (e : ChainEnvState) (a : Int)
    (hvalid : a = 0 ∨ a = 1) :
    ShapedChainEnv.step e a = ChainEnv.step e a := rfl

/-- Witness for C9 at a concrete instance state and action. -/
theorem C9_shaped_step_equals_chain_step_witness :
    ((1 : Int) = 0 ∨ (1 : Int) = 1) ∧
    ShapedChainEnv.step defaultEnv 1 = ChainEnv.step defaultEnv 1 :=
  ⟨Or.inr rfl, C9_shaped_step_equals_chain_step defaultEnv 1 (Or.inr rfl)⟩

/-- C10: neither `step` nor `reset` changes the configuration fields (chain
length, rewards, horizon) or the spaces — only position and counter move —
and the constructor with no config installs the defaults n = 20,
small_reward = 2, large_reward = 10 and horizon 20. -/
theorem C10_configuration_is_never_modified :
    (∀ (e e2 : ChainEnvState) (a : Int) (out : Nat × Int × Bool × Info),
      ChainEnv.step e a = some (out, e2) →
        e2.n = e.n ∧ e2.small_reward = e.small_reward ∧
        e2.large_reward = e.large_reward ∧ e2._horizon = e._horizon ∧
        e2.action_space = e.action_space ∧
        e2.observation_space = e.observation_space) ∧
    (∀ e : ChainEnvState,
      (ChainEnv.reset e).2.n = e.n ∧
      (ChainEnv.reset e).2.small_reward = e.small_reward ∧
      (ChainEnv.reset e).2.large_reward = e.large_reward ∧
      (ChainEnv.reset e).2._horizon = e._horizon ∧
      (ChainEnv.reset e).2.action_space = e.action_space ∧
      (ChainEnv.reset e).2.observation_space = e.observation_space) ∧
    ((ChainEnv.init none).n = 20 ∧ (ChainEnv.init none).small_reward = 2 ∧
      (ChainEnv.init none).large_reward = 10 ∧
      (ChainEnv.init none)._horizon = 20) := by
  refine ⟨?_, ?_, rfl, rfl, rfl, rfl⟩
  · intro e e2 a out h
    obtain ⟨_, he2⟩ := ChainEnv.step_some e e2 a out h
    obtain ⟨fn, fs, fl, fh, fa, fo, _⟩ := ChainEnv.stepBody_frame e a
    subst he2
    exact ⟨fn, fs, fl, fh, fa, fo⟩
  · intro e
    exact ⟨rfl, rfl, rfl, rfl, rfl, rfl⟩

/-- Witness for C10 at a concrete successful step. -/
theorem C10_configuration_is_never_modified_witness :
    ChainEnv.step defaultEnv 0 =
      some (((1 : Nat), -1, false, ([] : Info)), afterFirstAdvance) ∧
    (afterFirstAdvance.n = defaultEnv.n ∧
      afterFirstAdvance.small_reward = defaultEnv.small_reward ∧
      afterFirstAdvance.large_reward = defaultEnv.large_reward ∧
      afterFirstAdvance._horizon = defaultEnv._horizon ∧
      afterFirstAdvance.action_space = defaultEnv.action_space ∧
      afterFirstAdvance.observation_space = defaultEnv.observation_space) :=
  ⟨by decide,
    C10_configuration_is_never_modified.1 defaultEnv afterFirstAdvance 0
      ((1 : Nat), -1, false, ([] : Info)) (by decide)⟩
